import Mathlib

/-!
Verification of the prediction service of the cyclone predictor
(`cyclone_predictor/predictor/services.py`): model-path resolution
(`get_model_path`), single-slot process-wide model caching (`load_model`,
a `functools.lru_cache(maxsize=1)` memoization), best-effort positive-class
probability extraction (`_predict_proba_safe`) and the prediction entry
point (`predict`).

Embedding choices:
* Python floats are modelled as `ℚ`; class labels as `ℤ` (`int(y)` is the
  identity on them).
* The deserialized model is duck-typed and its methods may be stateful and
  may raise; we model it as a record of functions threading an internal
  state of an arbitrary type `σ` and returning `Except` values.
* `try/except Exception` blocks are modelled by matching on the `Except`
  result; a caught exception takes the `except` branch.
* NumPy indexing that can raise `IndexError` (`proba[:, 1][0]`,
  `model.predict(X)[0]`) is modelled with the optional lookup `l[i]?`,
  `none` standing for the raised `IndexError`.
* The process-wide `lru_cache` slot, the Django settings object and the
  filesystem are gathered into a `World` record; `load_model` and `predict`
  are state transformers on it.  `lru_cache` stores only successful
  results, so a raising `load_model` leaves the cache slot empty.
-/

/-- Errors a service call can surface, mirroring the Python exceptions:
`FileNotFoundError` (with its message), a deserialization failure raised by
`joblib.load`, and any other exception. -/
inductive PyErr where
  | fileNotFound (msg : String)
  | loadError
  | exc
deriving DecidableEq, Repr

/-- A NumPy array as returned by `model.predict_proba`: zero-, one- or
two-dimensional (`ndim` is the constructor).  A two-dimensional array
carries its column count `ncols` (`shape[1]`). -/
inductive NDArr where
  | d0 (x : ℚ)
  | d1 (xs : List ℚ)
  | d2 (rows : List (List ℚ)) (ncols : ℕ)
deriving DecidableEq, Repr

/-- All numeric entries of the array, used to state range hypotheses about
a well-behaved classifier. -/
def NDArr.vals : NDArr → List ℚ
  | .d0 x => [x]
  | .d1 xs => xs
  | .d2 rows _ => rows.flatten

/-- The deserialized classifier object is opaque and duck-typed.  Its two
operations may mutate internal state (of type `σ`) and may raise;
`hasPredictProba` is `hasattr(model, "predict_proba")`.  `predict_proba`
may also return `None` (`Except.ok none`). -/
structure Model (σ : Type) where
  hasPredictProba : Bool
  predict_proba : σ → List (List ℚ) → Except Unit (Option NDArr) × σ
  predict : σ → List (List ℚ) → Except Unit (List ℤ) × σ

/-- The Django settings consulted by the service: `settings.BASE_DIR` and
the optional `settings.CYCLONE_MODEL_PATH` override (absent attribute =
`none`, mirroring `getattr(settings, "CYCLONE_MODEL_PATH", default)`). -/
structure Settings where
  BASE_DIR : String
  CYCLONE_MODEL_PATH : Option String

/-- Source: `get_model_path` (services.py:12-15).  Resolve the model path
from settings or fall back to the default in the app data directory.
`os.path.join` is modelled as posix-style concatenation.  A pure function
of the settings: it reads nothing else and writes nothing. -/
def get_model_path (s : Settings) : String :=
  let default_path := s.BASE_DIR ++ "/predictor/data/cyclone_model.pkl"
  match s.CYCLONE_MODEL_PATH with
  | some p => p
  | none => default_path

/-- The filesystem as the service sees it: `os.path.exists` and what
`joblib.load` yields at a path (`Except.error` = deserialization raised). -/
structure Disk (σ : Type) where
  existsAt : String → Bool
  load : String → Except Unit (Model σ × σ)

/-- Process-wide state visible to the service: settings, filesystem, the
single `lru_cache` slot of `load_model`, and the current internal state of
the cached model object. -/
structure World (σ : Type) where
  settings : Settings
  disk : Disk σ
  cache : Option (Model σ)
  mstate : σ

/-- Source: `load_model` (services.py:18-36), including its
`@lru_cache(maxsize=1)` decorator.  On a hit the cached handle is returned
with no filesystem access; on a miss the path is resolved, existence is
checked (absent ⇒ `FileNotFoundError` with the attempted path in the
message) and the artifact is deserialized.  Only a successful result is
stored in the cache slot — `lru_cache` does not memoize exceptions. -/
def load_model {σ : Type} (w : World σ) : Except PyErr (Model σ) × World σ :=
  match w.cache with
  | some m => (.ok m, w)
  | none =>
    let model_path := get_model_path w.settings
    if w.disk.existsAt model_path then
      match w.disk.load model_path with
      | .ok (m, s0) => (.ok m, { w with cache := some m, mstate := s0 })
      | .error _ => (.error .loadError, w)
    else
      (.error (.fileNotFound ("Model file not found at: " ++ model_path)), w)

/-- Source: the first `try` block of `_predict_proba_safe`
(services.py:44-55).  Result `some p` means the block returned probability
`p`; `none` means control falls through to the hard-decision fallback:
capability absent, exception raised (also by the `[0]` indexing), `None`
returned, or a shape matching neither `ndim == 2 ∧ shape[1] ≥ 2` nor
`ndim == 1 ∧ size ≥ 1`. -/
def proba_tier1 {σ : Type} (model : Model σ) (s : σ) (X : List (List ℚ)) :
    Option ℚ × σ :=
  if model.hasPredictProba then
    match model.predict_proba s X with
    | (.error _, s1) => (none, s1)
    | (.ok none, s1) => (none, s1)
    | (.ok (some proba), s1) =>
      match proba with
      | .d2 rows ncols =>
        if 2 ≤ ncols then
          match rows[0]?.bind (fun r => r[1]?) with
          | some v => (some v, s1)
          | none => (none, s1)
        else (none, s1)
      | .d1 xs =>
        if 1 ≤ xs.length then
          match xs[0]? with
          | some v => (some v, s1)
          | none => (none, s1)
        else (none, s1)
      | .d0 _ => (none, s1)
  else (none, s)

/-- Source: the second `try` block of `_predict_proba_safe`
(services.py:57-63): convert a fresh class prediction to a
pseudo-probability, `1.0` if `int(y) == 1` else `0.0`; any exception
(including the `[0]` on an empty result) yields `None`. -/
def proba_tier2 {σ : Type} (model : Model σ) (s : σ) (X : List (List ℚ)) :
    Option ℚ × σ :=
  match model.predict s X with
  | (.error _, s1) => (none, s1)
  | (.ok ys, s1) =>
    match ys[0]? with
    | some y => (some (if y = 1 then (1 : ℚ) else 0), s1)
    | none => (none, s1)

/-- Source: `_predict_proba_safe` (services.py:39-63).  Best-effort
extraction of the positive-class probability: the `predict_proba` tier,
then the hard-decision fallback.  Its return type is `Option ℚ × σ`, not
`Except`: by construction it never raises. -/
def _predict_proba_safe {σ : Type} (model : Model σ) (s : σ)
    (X : List (List ℚ)) : Option ℚ × σ :=
  match proba_tier1 model s X with
  | (some p, s1) => (some p, s1)
  | (none, s1) => proba_tier2 model s1 X

/-- Source: `predict` (services.py:66-84).  Load (or reuse) the cached
model, build the single-row input `X = np.asarray([features], dtype=float)`
— the feature values are passed through unchanged, with no validation —
take `model.predict(X)[0]` as the hard class, then attach the best-effort
probability.  Errors from loading and from the primary classification call
propagate; probability extraction cannot raise. -/
def predict {σ : Type} (w : World σ) (features : List ℚ) :
    Except PyErr (ℤ × Option ℚ) × World σ :=
  match load_model w with
  | (.error e, w1) => (.error e, w1)
  | (.ok model, w1) =>
    let X : List (List ℚ) := [features]
    match model.predict w1.mstate X with
    | (.error _, s1) => (.error .exc, { w1 with mstate := s1 })
    | (.ok ys, s1) =>
      match ys[0]? with
      | none => (.error .exc, { w1 with mstate := s1 })
      | some y =>
        match _predict_proba_safe model s1 X with
        | (proba, s2) => (.ok (y, proba), { w1 with mstate := s2 })

/-! ### Claim C1 -/

/-- Claim C1: failures in probability extraction never propagate out of
`predict`.  If the probability-estimation tier raises and the hard-class
fallback tier raises too, `_predict_proba_safe` still returns (it yields an
absent probability — its return type `Option ℚ × σ` cannot carry an
exception), and `predict` returns the hard class computed by the primary
classification call paired with an absent probability. -/
theorem C1_both_tiers_fail {σ : Type} (w : World σ) (f : List ℚ)
    (m : Model σ) (w1 : World σ) (ys : List ℤ) (y : ℤ) (s1 s2 s3 : σ)
    (hload : load_model w = (.ok m, w1))
    (hpred : m.predict w1.mstate [f] = (.ok ys, s1))
    (hy : ys[0]? = some y)
    (hcap : m.hasPredictProba = true)
    (hfail1 : m.predict_proba s1 [f] = (.error (), s2))
    (hfail2 : m.predict s2 [f] = (.error (), s3)) :
    _predict_proba_safe m s1 [f] = (none, s3) ∧
    predict w f = (.ok (y, none), { w1 with mstate := s3 }) := by
  have h1 : proba_tier1 m s1 [f] = (none, s2) := by
    simp [proba_tier1, hcap, hfail1]
  have h2 : proba_tier2 m s2 [f] = (none, s3) := by
    simp [proba_tier2, hfail2]
  have hps : _predict_proba_safe m s1 [f] = (none, s3) := by
    simp [_predict_proba_safe, h1, h2]
  refine ⟨hps, ?_⟩
  simp [predict, hload, hpred, hy, hps]

/-- A model whose `predict` succeeds on the first call and raises on every
later one, and whose `predict_proba` always raises; internal state is the
call counter. -/
def mC1 : Model ℕ where
  hasPredictProba := true
  predict_proba := fun s _ => (.error (), s + 1)
  predict := fun s _ => if s = 0 then (.ok [1], 1) else (.error (), s + 1)

/-- A process state holding `mC1` already cached, before any call. -/
def wC1 : World ℕ where
  settings := { BASE_DIR := "/app", CYCLONE_MODEL_PATH := none }
  disk := { existsAt := fun _ => false, load := fun _ => .error () }
  cache := some mC1
  mstate := 0

/-- Witness for C1: with `mC1`, the primary classification succeeds with
class 1, then both probability tiers raise, and `predict` still returns
`(1, none)`. -/
theorem C1_witness :
    _predict_proba_safe mC1 1 [[0]] = (none, 3) ∧
    predict wC1 [0] = (.ok (1, none), { wC1 with mstate := 3 }) :=
  C1_both_tiers_fail wC1 [0] mC1 wC1 [1] 1 1 2 3 rfl rfl rfl rfl rfl rfl

/-! ### Claim C2 -/

/-- Claim C2: when the model exposes `predict_proba`, a two-column output's
second column (row 0, column 1) is taken as the positive-class
probability, and a one-dimensional output is taken directly — its first
entry is the probability. -/
theorem C2_proba_columns {σ : Type} (m : Model σ) (s s1 : σ)
    (X : List (List ℚ)) (hcap : m.hasPredictProba = true) :
    (∀ (r0 : List ℚ) (rest : List (List ℚ)) (ncols : ℕ) (p : ℚ),
        2 ≤ ncols →
        m.predict_proba s X = (.ok (some (.d2 (r0 :: rest) ncols)), s1) →
        r0[1]? = some p →
        _predict_proba_safe m s X = (some p, s1)) ∧
    (∀ (p : ℚ) (xs : List ℚ),
        m.predict_proba s X = (.ok (some (.d1 (p :: xs))), s1) →
        _predict_proba_safe m s X = (some p, s1)) := by
  constructor
  · intro r0 rest ncols p hn hpp hget
    have h1 : proba_tier1 m s X = (some p, s1) := by
      simp [proba_tier1, hcap, hpp, hn, hget]
    simp [_predict_proba_safe, h1]
  · intro p xs hpp
    have h1 : proba_tier1 m s X = (some p, s1) := by
      simp [proba_tier1, hcap, hpp]
    simp [_predict_proba_safe, h1]

/-- A stateless model whose `predict_proba` returns `[[0.3, 0.7]]` and
whose `predict` returns class 1. -/
def mC2 : Model Unit where
  hasPredictProba := true
  predict_proba := fun s _ => (.ok (some (.d2 [[3/10, 7/10]] 2)), s)
  predict := fun s _ => (.ok [1], s)

/-- A process state holding `mC2` already cached. -/
def wC2 : World Unit where
  settings := { BASE_DIR := "/app", CYCLONE_MODEL_PATH := none }
  disk := { existsAt := fun _ => false, load := fun _ => .error () }
  cache := some mC2
  mstate := ()

/-- Witness for C2: the spec's example — `predict_proba` returning
`[[0.3, 0.7]]` makes the extracted probability `0.7`, and `predict` on
that input returns it. -/
theorem C2_witness :
    _predict_proba_safe mC2 () [[25, 1000]] = (some (7/10), ()) ∧
    predict wC2 [25, 1000] = (.ok (1, some (7/10)), wC2) :=
  ⟨(C2_proba_columns mC2 () () [[25, 1000]] rfl).1 [3/10, 7/10] [] 2 (7/10)
      (by decide) rfl rfl,
   rfl⟩

/-! ### Claim C3 -/

/-- Claim C3: when the model exposes no probability-estimation capability,
or the probability tier raises, the probability is derived from a hard
class prediction: `1.0` when the predicted class is `1`, `0.0` when it is
`0` (indeed for any class other than `1`). -/
theorem C3_pseudo_probability {σ : Type} (m : Model σ) (s s1 s2 : σ)
    (X : List (List ℚ)) (y : ℤ) (ys : List ℤ) :
    (m.hasPredictProba = false →
        m.predict s X = (.ok ys, s1) → ys[0]? = some y →
        _predict_proba_safe m s X = (some (if y = 1 then (1 : ℚ) else 0), s1)) ∧
    (m.hasPredictProba = true →
        m.predict_proba s X = (.error (), s1) →
        m.predict s1 X = (.ok ys, s2) → ys[0]? = some y →
        _predict_proba_safe m s X = (some (if y = 1 then (1 : ℚ) else 0), s2)) := by
  constructor
  · intro hcap hp hy
    have h1 : proba_tier1 m s X = (none, s) := by simp [proba_tier1, hcap]
    simp [_predict_proba_safe, h1, proba_tier2, hp, hy]
  · intro hcap hpp hp hy
    have h1 : proba_tier1 m s X = (none, s1) := by
      simp [proba_tier1, hcap, hpp]
    simp [_predict_proba_safe, h1, proba_tier2, hp, hy]

/-- A model without `predict_proba` that predicts class 1. -/
def mC3 : Model Unit where
  hasPredictProba := false
  predict_proba := fun s _ => (.error (), s)
  predict := fun s _ => (.ok [1], s)

/-- A model without `predict_proba` that predicts class 0. -/
def mC3b : Model Unit where
  hasPredictProba := false
  predict_proba := fun s _ => (.error (), s)
  predict := fun s _ => (.ok [0], s)

/-- Witness for C3: without a probability capability, predicted class 1
yields probability `1.0` and predicted class 0 yields `0.0`. -/
theorem C3_witness :
    _predict_proba_safe mC3 () [[1]] = (some 1, ()) ∧
    _predict_proba_safe mC3b () [[1]] = (some 0, ()) :=
  ⟨(C3_pseudo_probability mC3 () () () [[1]] 1 [1]).1 rfl rfl rfl,
   (C3_pseudo_probability mC3b () () () [[1]] 0 [0]).1 rfl rfl rfl⟩

/-! ### Claims C4 and C5: the cache -/

/-- On a cache hit `load_model` returns the cached handle and leaves the
world untouched; the filesystem is not consulted. -/
lemma load_model_cache_hit {σ : Type} (w : World σ) (m : Model σ)
    (h : w.cache = some m) : load_model w = (.ok m, w) := by
  simp [load_model, h]

/-- A model used to exercise the cache claims. -/
def mC4 : Model Unit where
  hasPredictProba := false
  predict_proba := fun s _ => (.error (), s)
  predict := fun s _ => (.ok [0], s)

/-- An empty-cache process state whose filesystem lacks the artifact. -/
def wC4absent : World Unit where
  settings := { BASE_DIR := "/app", CYCLONE_MODEL_PATH := none }
  disk := { existsAt := fun _ => false, load := fun _ => .error () }
  cache := none
  mstate := ()

/-- A filesystem on which the artifact now exists and deserializes to
`mC4`. -/
def diskC4present : Disk Unit where
  existsAt := fun _ => true
  load := fun _ => .ok (mC4, ())

/-- Counterexample to claim C4 as stated: the first call with the artifact
absent raises `FileNotFoundError` with the attempted path, but because
`lru_cache` does not memoize exceptions a subsequent call in the same
process, made after the transient absence ends, succeeds — retry-success
without a process restart. -/
theorem C4_counterexample :
    (load_model wC4absent).1 =
      .error (.fileNotFound
        "Model file not found at: /app/predictor/data/cyclone_model.pkl") ∧
    (load_model { (load_model wC4absent).2 with disk := diskC4present }).1 =
      .ok mC4 := by
  constructor <;> rfl

/-- Claim C4 (amended): with the artifact absent at the resolved path,
`load_model` fails with `FileNotFoundError` carrying the attempted path in
its message and leaves the world unchanged — in particular the cache slot
stays empty, so the same failure recurs on every call made while the
artifact is still absent — and `predict` surfaces the same error.  The
failure itself is not cached: a later call that finds the artifact present
deserializes and returns it (retry-success is possible without a process
restart). -/
theorem C4_absent_artifact {σ : Type} (w : World σ) (f : List ℚ)
    (hc : w.cache = none)
    (habs : w.disk.existsAt (get_model_path w.settings) = false) :
    load_model w =
      (.error (.fileNotFound
        ("Model file not found at: " ++ get_model_path w.settings)), w) ∧
    (predict w f).1 =
      .error (.fileNotFound
        ("Model file not found at: " ++ get_model_path w.settings)) ∧
    ∀ (d : Disk σ) (m : Model σ) (s0 : σ),
      d.existsAt (get_model_path w.settings) = true →
      d.load (get_model_path w.settings) = .ok (m, s0) →
      (load_model { w with disk := d }).1 = .ok m := by
  have h1 : load_model w =
      (.error (.fileNotFound
        ("Model file not found at: " ++ get_model_path w.settings)), w) := by
    simp [load_model, hc, habs]
  refine ⟨h1, ?_, ?_⟩
  · simp [predict, h1]
  · intro d m s0 hex hld
    simp [load_model, hc, hex, hld]

/-- Witness for the amended C4 at a concrete world: the artifact is absent,
so `load_model` and `predict` fail with the `FileNotFoundError` carrying
the resolved path, and a disk on which the artifact appears makes a later
call succeed. -/
theorem C4_witness :
    load_model wC4absent =
      (.error (.fileNotFound
        ("Model file not found at: " ++ get_model_path wC4absent.settings)),
        wC4absent) ∧
    (predict wC4absent [0]).1 =
      .error (.fileNotFound
        ("Model file not found at: " ++ get_model_path wC4absent.settings)) ∧
    ∀ (d : Disk Unit) (m : Model Unit) (s0 : Unit),
      d.existsAt (get_model_path wC4absent.settings) = true →
      d.load (get_model_path wC4absent.settings) = .ok (m, s0) →
      (load_model { wC4absent with disk := d }).1 = .ok m :=
  C4_absent_artifact wC4absent [0] rfl rfl

/-- Claim C5: after the first successful `load_model`, the cache slot holds
the returned handle, and every later call returns that same handle with
the world unchanged — whatever the disk now contains, storage is not
consulted and the handle is never invalidated or reloaded. -/
theorem C5_singleton_cache {σ : Type} (w0 w1 : World σ) (m : Model σ)
    (h : load_model w0 = (.ok m, w1)) :
    w1.cache = some m ∧
    ∀ d : Disk σ,
      load_model { w1 with disk := d } = (.ok m, { w1 with disk := d }) := by
  have hc : w1.cache = some m := by
    unfold load_model at h
    cases hw : w0.cache with
    | some m0 =>
      rw [hw] at h
      simp only [Prod.mk.injEq, Except.ok.injEq] at h
      obtain ⟨h1, h2⟩ := h
      subst h2
      rw [hw, h1]
    | none =>
      rw [hw] at h
      simp only at h
      split at h
      · split at h
        · simp only [Prod.mk.injEq, Except.ok.injEq] at h
          obtain ⟨h1, h2⟩ := h
          subst h2
          simp [h1]
        · simp at h
      · simp at h
  refine ⟨hc, fun d => ?_⟩
  exact load_model_cache_hit _ m (by simp [hc])

/-- The model handle cached in the C5 witness world. -/
def mC5 : Model Unit where
  hasPredictProba := false
  predict_proba := fun s _ => (.error (), s)
  predict := fun s _ => (.ok [1], s)

/-- An empty-cache process state whose filesystem holds an artifact that
deserializes to `mC5`. -/
def wC5 : World Unit where
  settings := { BASE_DIR := "/app", CYCLONE_MODEL_PATH := none }
  disk := { existsAt := fun _ => true, load := fun _ => .ok (mC5, ()) }
  cache := none
  mstate := ()

/-- The process state after the first successful load in `wC5`. -/
def wC5loaded : World Unit := { wC5 with cache := some mC5 }

/-- Witness for C5: after the concrete first successful load, the cache
holds the handle and every later call returns it with the world unchanged,
for any disk contents. -/
theorem C5_witness :
    wC5loaded.cache = some mC5 ∧
    ∀ d : Disk Unit,
      load_model { wC5loaded with disk := d } =
        (.ok mC5, { wC5loaded with disk := d }) :=
  C5_singleton_cache wC5 wC5loaded mC5 rfl

/-! ### Claim C6 -/

/-- An element found by an optional list lookup is a member of the list. -/
lemma mem_of_lookup {α : Type _} {l : List α} {n : ℕ} {a : α}
    (h : l[n]? = some a) : a ∈ l := by
  obtain ⟨hlt, he⟩ := List.getElem?_eq_some.mp h
  exact he ▸ List.getElem_mem hlt

/-- A probability returned by the hard-decision fallback tier is exactly
`0` or `1`. -/
lemma proba_tier2_zero_or_one {σ : Type} (m : Model σ) (s s1 : σ)
    (X : List (List ℚ)) (q : ℚ)
    (h : proba_tier2 m s X = (some q, s1)) : q = 0 ∨ q = 1 := by
  unfold proba_tier2 at h
  split at h
  · simp at h
  · split at h
    · simp only [Prod.mk.injEq, Option.some.injEq] at h
      obtain ⟨h1, -⟩ := h
      subst h1
      split
      · right; rfl
      · left; rfl
    · simp at h

/-- A probability returned by the `predict_proba` tier is one of the
entries of the array that the model returned. -/
lemma proba_tier1_mem_vals {σ : Type} (m : Model σ) (s s1 : σ)
    (X : List (List ℚ)) (q : ℚ)
    (h : proba_tier1 m s X = (some q, s1)) :
    ∃ (a : NDArr) (s2 : σ),
      m.predict_proba s X = (.ok (some a), s2) ∧ q ∈ a.vals := by
  cases hcap : m.hasPredictProba with
  | false => simp [proba_tier1, hcap] at h
  | true =>
    rcases hpp : m.predict_proba s X with ⟨res, s2⟩
    match res with
    | .error e => simp [proba_tier1, hcap, hpp] at h
    | .ok none => simp [proba_tier1, hcap, hpp] at h
    | .ok (some (.d0 x)) => simp [proba_tier1, hcap, hpp] at h
    | .ok (some (.d1 xs)) =>
      simp only [proba_tier1, hcap, hpp, if_true] at h
      split at h
      · split at h
        next v hv =>
          simp only [Prod.mk.injEq, Option.some.injEq] at h
          obtain ⟨h1, -⟩ := h
          subst h1
          exact ⟨.d1 xs, s2, rfl, mem_of_lookup hv⟩
        · simp at h
      · simp at h
    | .ok (some (.d2 rows ncols)) =>
      simp only [proba_tier1, hcap, hpp, if_true] at h
      split at h
      · split at h
        next v hv =>
          simp only [Prod.mk.injEq, Option.some.injEq] at h
          obtain ⟨h1, -⟩ := h
          subst h1
          obtain ⟨r, hr, hvr⟩ := Option.bind_eq_some.mp hv
          exact ⟨.d2 rows ncols, s2, rfl,
            List.mem_flatten.mpr ⟨r, mem_of_lookup hr, mem_of_lookup hvr⟩⟩
        · simp at h
      · simp at h

/-- Any probability `_predict_proba_safe` produces lies in `[0,1]`,
provided every probability array the model returns has entries in
`[0,1]` (the fallback tier needs no such hypothesis: it only ever
produces `0` or `1`). -/
lemma psafe_range {σ : Type} (m : Model σ) (s : σ) (X : List (List ℚ))
    (hpr : ∀ (s0 : σ) (a : NDArr) (s2 : σ),
        m.predict_proba s0 X = (.ok (some a), s2) →
        ∀ q ∈ a.vals, 0 ≤ q ∧ q ≤ 1)
    (q : ℚ) (s1 : σ) (h : _predict_proba_safe m s X = (some q, s1)) :
    0 ≤ q ∧ q ≤ 1 := by
  unfold _predict_proba_safe at h
  split at h
  next p s2 heq =>
    simp only [Prod.mk.injEq, Option.some.injEq] at h
    obtain ⟨h1, -⟩ := h
    subst h1
    obtain ⟨a, s3, hpp, hmem⟩ := proba_tier1_mem_vals m s s2 X p heq
    exact hpr s a s3 hpp p hmem
  next s2 heq =>
    rcases proba_tier2_zero_or_one m s2 s1 X q h with h0 | h0 <;>
      subst h0 <;> norm_num

/-- Claim C6: for a 9-length feature vector and a model honouring the
binary-classifier contract the spec assigns to the opaque artifact
(classification outputs are classes in `{0,1}`, probability arrays hold
values in `[0,1]`), a successful `predict` returns a well-formed result:
the class is `0` or `1`, and the probability is absent or in `[0,1]`. -/
theorem C6_wellformed {σ : Type} (w : World σ) (f : List ℚ) (m : Model σ)
    (w1 wout : World σ) (y : ℤ) (p : Option ℚ)
    (hlen : f.length = 9)
    (hload : load_model w = (.ok m, w1))
    (hcls : ∀ (s : σ) (ys : List ℤ) (s2 : σ),
        m.predict s [f] = (.ok ys, s2) → ∀ z ∈ ys, z = 0 ∨ z = 1)
    (hpr : ∀ (s : σ) (a : NDArr) (s2 : σ),
        m.predict_proba s [f] = (.ok (some a), s2) →
        ∀ q ∈ a.vals, 0 ≤ q ∧ q ≤ 1)
    (hrun : predict w f = (.ok (y, p), wout)) :
    (y = 0 ∨ y = 1) ∧ ∀ q ∈ p, 0 ≤ q ∧ q ≤ 1 := by
  unfold predict at hrun
  rw [hload] at hrun
  simp only at hrun
  split at hrun
  · simp at hrun
  next ys s1 heq =>
    split at hrun
    · simp at hrun
    next y0 hy0 =>
      rcases hps : _predict_proba_safe m s1 [f] with ⟨proba, s2⟩
      rw [hps] at hrun
      simp only [Prod.mk.injEq, Except.ok.injEq] at hrun
      obtain ⟨⟨hy, hp⟩, -⟩ := hrun
      subst hy
      subst hp
      constructor
      · exact hcls _ _ _ heq y0 (mem_of_lookup hy0)
      · intro q hq
        have hq' : proba = some q := hq
        rw [hq'] at hps
        exact psafe_range m s1 [f] hpr q s2 hps

/-- A 9-feature input vector (order: sea-surface temp, pressure, humidity,
wind shear, vorticity, latitude, ocean depth, proximity, disturbance). -/
def fC6 : List ℚ := [28, 950, 85, 12, 1/500, 15, 200, 3, 1]

/-- A well-behaved binary classifier: classes in `{0,1}`, probabilities
`[[0.3, 0.7]]`. -/
def mC6 : Model Unit where
  hasPredictProba := true
  predict_proba := fun s _ => (.ok (some (.d2 [[3/10, 7/10]] 2)), s)
  predict := fun s _ => (.ok [1], s)

/-- A process state holding `mC6` already cached. -/
def wC6 : World Unit where
  settings := { BASE_DIR := "/app", CYCLONE_MODEL_PATH := none }
  disk := { existsAt := fun _ => true, load := fun _ => .ok (mC6, ()) }
  cache := some mC6
  mstate := ()

/-- Witness for C6: on the concrete 9-feature vector `fC6` and the
well-behaved model `mC6`, the returned class 1 is in `{0,1}` and the
returned probability 0.7 is in `[0,1]`. -/
theorem C6_witness :
    ((1 : ℤ) = 0 ∨ (1 : ℤ) = 1) ∧
    ∀ q ∈ (some (7/10) : Option ℚ), 0 ≤ q ∧ q ≤ 1 :=
  C6_wellformed wC6 fC6 mC6 wC6 wC6 1 (some (7/10)) rfl rfl
    (by
      intro s ys s2 h z hz
      simp only [mC6, Prod.mk.injEq, Except.ok.injEq] at h
      obtain ⟨h1, -⟩ := h
      subst h1
      simp only [List.mem_singleton] at hz
      subst hz
      exact Or.inr rfl)
    (by
      intro s a s2 h q hq
      simp only [mC6, Prod.mk.injEq, Except.ok.injEq, Option.some.injEq] at h
      obtain ⟨h1, -⟩ := h
      subst h1
      have hq2 : q = 3/10 ∨ q = 7/10 := by simpa [NDArr.vals] using hq
      rcases hq2 with h2 | h2 <;> subst h2 <;> norm_num)
    rfl

/-! ### Claim C7 -/

/-- Inversion for a successful `predict` against a cached model: the class
is the head of the primary classification call's output, and the cache
still holds the same handle afterwards. -/
lemma predict_ok_inv {σ : Type} (w : World σ) (f : List ℚ) (m : Model σ)
    (y : ℤ) (p : Option ℚ) (w2 : World σ)
    (hc : w.cache = some m)
    (h : predict w f = (.ok (y, p), w2)) :
    (∃ (ys : List ℤ) (s1 : σ),
      m.predict w.mstate [f] = (.ok ys, s1) ∧ ys[0]? = some y) ∧
    w2.cache = some m := by
  unfold predict at h
  rw [load_model_cache_hit w m hc] at h
  simp only at h
  split at h
  · simp at h
  next ys s1 heq =>
    split at h
    · simp at h
    next y0 hy0 =>
      rcases hps : _predict_proba_safe m s1 [f] with ⟨proba, s2⟩
      rw [hps] at h
      simp only [Prod.mk.injEq, Except.ok.injEq] at h
      obtain ⟨⟨hy, -⟩, hw⟩ := h
      subst hy
      refine ⟨⟨ys, s1, heq, hy0⟩, ?_⟩
      rw [← hw]
      exact hc

/-- Claim C7: `predict` is deterministic in its input.  Two consecutive
calls with the same feature vector against the same cached handle, whose
underlying `predict` operation is deterministic (its visible output does
not depend on the model's internal state), return the same class. -/
theorem C7_deterministic_class {σ : Type} (w : World σ) (f : List ℚ)
    (m : Model σ) (y1 y2 : ℤ) (p1 p2 : Option ℚ) (wa wb : World σ)
    (hc : w.cache = some m)
    (hdet : ∀ s s2 : σ, (m.predict s [f]).1 = (m.predict s2 [f]).1)
    (h1 : predict w f = (.ok (y1, p1), wa))
    (h2 : predict wa f = (.ok (y2, p2), wb)) :
    y1 = y2 := by
  obtain ⟨⟨ys, s1, hp1, hy1⟩, hca⟩ := predict_ok_inv w f m y1 p1 wa hc h1
  obtain ⟨⟨zs, t1, hp2, hy2⟩, -⟩ := predict_ok_inv wa f m y2 p2 wb hca h2
  have hfst : (m.predict w.mstate [f]).1 = (m.predict wa.mstate [f]).1 :=
    hdet _ _
  rw [hp1, hp2] at hfst
  simp only [Except.ok.injEq] at hfst
  rw [hfst] at hy1
  rw [hy1] at hy2
  exact (Option.some.injEq _ _ ▸ hy2 : y1 = y2)

/-- A stateless deterministic model predicting class 1, without a
probability capability. -/
def mC7 : Model Unit where
  hasPredictProba := false
  predict_proba := fun s _ => (.error (), s)
  predict := fun s _ => (.ok [1], s)

/-- A process state holding `mC7` already cached. -/
def wC7 : World Unit where
  settings := { BASE_DIR := "/app", CYCLONE_MODEL_PATH := none }
  disk := { existsAt := fun _ => true, load := fun _ => .ok (mC7, ()) }
  cache := some mC7
  mstate := ()

/-- Witness for C7: two consecutive concrete `predict` calls with the same
input against the cached `mC7` both return class 1. -/
theorem C7_witness :
    predict wC7 [0] = (.ok (1, some 1), wC7) ∧ (1 : ℤ) = 1 :=
  ⟨rfl,
   C7_deterministic_class wC7 [0] mC7 1 1 (some 1) (some 1) wC7 wC7 rfl
     (fun _ _ => rfl) rfl rfl⟩

/-! ### Claim C8 -/

/-- Claim C8: `get_model_path` returns the configured override when the
setting is present and otherwise the fixed default under the application
data directory.  It is a pure function of the settings record — it can
have no side effect on any state. -/
theorem C8_resolve_path (s : Settings) :
    (∀ p, s.CYCLONE_MODEL_PATH = some p → get_model_path s = p) ∧
    (s.CYCLONE_MODEL_PATH = none →
      get_model_path s = s.BASE_DIR ++ "/predictor/data/cyclone_model.pkl") := by
  constructor
  · intro p hp
    simp [get_model_path, hp]
  · intro hp
    simp [get_model_path, hp]

/-- Settings with an override path configured. -/
def setOverride : Settings :=
  { BASE_DIR := "/app", CYCLONE_MODEL_PATH := some "/models/custom.pkl" }

/-- Settings without an override path. -/
def setDefault : Settings :=
  { BASE_DIR := "/app", CYCLONE_MODEL_PATH := none }

/-- Witness for C8: the override wins when configured; otherwise the default
under the data directory is returned. -/
theorem C8_witness :
    get_model_path setOverride = "/models/custom.pkl" ∧
    get_model_path setDefault = "/app/predictor/data/cyclone_model.pkl" :=
  ⟨(C8_resolve_path setOverride).1 "/models/custom.pkl" rfl,
   (C8_resolve_path setDefault).2 rfl⟩

/-! ### Claim C9 -/

/-- Claim C9: the service re-validates nothing.  For any feature vector —
no hypothesis restricts its values, so a disturbance indicator outside
`{0,1}` or a latitude outside `[-90,90]` is covered — `predict` hands the
model exactly the unmodified single-row input `[f]` and raises no
validation error of its own: whenever the model's classification call
succeeds, so does `predict`. -/
theorem C9_passthrough {σ : Type} (w : World σ) (f : List ℚ) (m : Model σ)
    (w1 : World σ) (y : ℤ) (ys : List ℤ) (s1 : σ)
    (hload : load_model w = (.ok m, w1))
    (hpred : m.predict w1.mstate [f] = (.ok (y :: ys), s1)) :
    predict w f =
      (.ok (y, (_predict_proba_safe m s1 [f]).1),
       { w1 with mstate := (_predict_proba_safe m s1 [f]).2 }) := by
  rcases hps : _predict_proba_safe m s1 [f] with ⟨proba, s2⟩
  simp [predict, hload, hpred, hps]

/-- A 9-feature vector with a latitude of 500 and a disturbance indicator
of 7, both far outside their documented ranges. -/
def fOut : List ℚ := [30, 900, 80, 10, 1/1000, 500, 100, 5, 7]

/-- A model that answers class 1 exactly when it receives the unmodified
single-row `[fOut]`, and class 0 on any other input. -/
def mC9 : Model Unit where
  hasPredictProba := false
  predict_proba := fun s _ => (.error (), s)
  predict := fun s X => (if X = [fOut] then .ok [1] else .ok [0], s)

/-- A process state holding `mC9` already cached. -/
def wC9 : World Unit where
  settings := { BASE_DIR := "/app", CYCLONE_MODEL_PATH := none }
  disk := { existsAt := fun _ => true, load := fun _ => .ok (mC9, ()) }
  cache := some mC9
  mstate := ()

/-- Witness for C9: the out-of-range vector `fOut` reaches the model
unchanged — the detector model answers class 1, which only happens on the
exact input `[fOut]` — and no validation error is raised. -/
theorem C9_witness :
    predict wC9 fOut =
      (.ok (1, (_predict_proba_safe mC9 () [fOut]).1),
       { wC9 with mstate := (_predict_proba_safe mC9 () [fOut]).2 }) :=
  C9_passthrough wC9 fOut mC9 wC9 1 [] () rfl (by simp [mC9])

/-! ### Claim C10 -/

/-- Claim C10: when the probability falls back to the hard-class tier, it
comes from a second, independent call to the model's `predict` — not from
the class already computed — and is exactly `1.0` or `0.0` (`1.0` iff that
second call's class is `1`).  In particular a nondeterministic model can
return a probability disagreeing with the returned class. -/
theorem C10_independent_second_call {σ : Type} (w : World σ) (f : List ℚ)
    (m : Model σ) (w1 : World σ) (y1 y2 : ℤ) (r1 r2 : List ℤ) (s1 s2 : σ)
    (hload : load_model w = (.ok m, w1))
    (hcap : m.hasPredictProba = false)
    (h1 : m.predict w1.mstate [f] = (.ok (y1 :: r1), s1))
    (h2 : m.predict s1 [f] = (.ok (y2 :: r2), s2)) :
    predict w f =
      (.ok (y1, some (if y2 = 1 then (1 : ℚ) else 0)),
       { w1 with mstate := s2 }) := by
  have ht1 : proba_tier1 m s1 [f] = (none, s1) := by
    simp [proba_tier1, hcap]
  have hps : _predict_proba_safe m s1 [f] =
      (some (if y2 = 1 then (1 : ℚ) else 0), s2) := by
    simp [_predict_proba_safe, ht1, proba_tier2, h2]
  simp [predict, hload, h1, hps]

/-- A nondeterministic model without a probability capability: it predicts
class 1 on its first call and class 0 on every later call. -/
def mC10 : Model ℕ where
  hasPredictProba := false
  predict_proba := fun s _ => (.error (), s)
  predict := fun s _ => (.ok [if s = 0 then 1 else 0], s + 1)

/-- A process state holding `mC10` already cached, before any call. -/
def wC10 : World ℕ where
  settings := { BASE_DIR := "/app", CYCLONE_MODEL_PATH := none }
  disk := { existsAt := fun _ => false, load := fun _ => .error () }
  cache := some mC10
  mstate := 0

/-- Witness for C10: against the nondeterministic `mC10`, `predict`
returns class 1 with probability `0.0` — the probability came from the
second, independent classification call, and disagrees with the class. -/
theorem C10_witness :
    predict wC10 [0] = (.ok (1, some 0), { wC10 with mstate := 2 }) :=
  C10_independent_second_call wC10 [0] mC10 wC10 1 0 [] [] 1 2 rfl rfl rfl rfl
